import Mathlib

/-!
Verification of the gym_ai adaptive recommendation engine.

This file is a shallow embedding, in Lean 4, of the parts of the gym_ai
repository that the verified properties concern:

* `src/gym_ai/utils/calculations.py` — profile similarity, statistics;
* `src/models/profile.py`, `src/models/exercise.py`,
  `src/gym_ai/models/routine.py` — the domain records;
* `src/models/learning_system.py` — the learning state store;
* `src/services/learning_service.py` — the feedback/learning update engine;
* `src/gym_ai/services/inference_service.py` — prediction, parameter
  inference, anomaly detection;
* `src/config.py` and `src/gym_ai/utils/constants.py` — configuration tables.

Modelling conventions: Python floats are modelled as `ℚ` where the code only
adds, subtracts, multiplies, divides and compares (learning-state updates,
anomaly detection), and as `ℝ` where a square root is taken (profile
similarity and everything downstream of it).  Python dictionaries with a
fixed key set are structures with `Option` fields (`none` = key absent);
`dict.get(k, d)` is `Option.getD`.  Functions that can raise return
`Except String`.  `round` is Python 3 round-half-to-even.
-/

namespace GymAI

/-- A loosely typed Python value as stored in a profile dictionary: either a
number or a non-numeric value (modelled by its string form).  Arithmetic on a
non-numeric value raises, which `calculate_profile_similarity` catches. -/
inductive PVal where
  | num (q : ℚ)
  | str (s : String)
deriving DecidableEq

/-- A profile dictionary restricted to the keys that
`calculate_profile_similarity` reads (`edad`, `imc`, `nivel_num`, `dias`,
`objetivo_str`); all other keys of `Profile.to_dict` are never consulted by
the embedded computations.  `none` models an absent key. -/
structure PyDict where
  edad : Option PVal := none
  imc : Option PVal := none
  nivel_num : Option PVal := none
  dias : Option PVal := none
  objetivo_str : Option PVal := none
deriving DecidableEq

/-- Source: `profile.get(key, default)` followed by use in arithmetic: a missing key
yields the default, a numeric value yields the number, and a non-numeric
value makes the arithmetic raise (`none` here). -/
def getNumD (v : Option PVal) (d : ℚ) : Option ℚ :=
  match v with
  | none => some d
  | some (PVal.num q) => some q
  | some (PVal.str _) => none

/-- The binary goal comparison of `calculate_profile_similarity`
(src/gym_ai/utils/calculations.py lines 123-126): `0` if the two
`objetivo_str` values (default `''`) are equal, else `1`. -/
def objDiff (p1 p2 : PyDict) : ℚ :=
  if p1.objetivo_str.getD (PVal.str "") = p2.objetivo_str.getD (PVal.str "") then 0 else 1

/-- One normalized squared difference of `calculate_profile_similarity`:
`(abs(v1 - v2) / norm)^2` with default `d` for missing keys, raising
(`none`) when either value is non-numeric. -/
def normDiffSq (v1 v2 : Option PVal) (d norm : ℚ) : Option ℚ :=
  match getNumD v1 d, getNumD v2 d with
  | some a, some b => some ((|a - b| / norm) ^ 2)
  | _, _ => none

/-- The squared Euclidean distance computed inside the `try` block of
`calculate_profile_similarity` (src/gym_ai/utils/calculations.py lines
109-141): normalized age, IMC, level and days differences plus the binary
goal mismatch, with defaults 30, 22, 2, 4 and normalization factors
100, 20, 3, 7 (from `NORMALIZATION_FACTORS`).  `none` models the `except`
path (a non-numeric value in a numeric position). -/
def simDistSq (p1 p2 : PyDict) : Option ℚ := do
  let de ← normDiffSq p1.edad p2.edad 30 100
  let di ← normDiffSq p1.imc p2.imc 22 20
  let dn ← normDiffSq p1.nivel_num p2.nivel_num 2 3
  let dd ← normDiffSq p1.dias p2.dias 4 7
  pure (de + di + dn + objDiff p1 p2 ^ 2 + dd)

/-- Source: `calculate_profile_similarity` (src/gym_ai/utils/calculations.py lines
84-150): `1 / (1 + sqrt(distance²))` on success, the neutral `0.5` when the
computation raises. -/
noncomputable def calculate_profile_similarity (p1 p2 : PyDict) : ℝ :=
  match simDistSq p1 p2 with
  | some d => 1 / (1 + Real.sqrt (d : ℝ))
  | none => 0.5

/-- Source: `Mappings.LEVEL_STR_TO_NUM.get(s, 2)` (src/config.py lines 235-239). -/
def levelStrToNum (s : String) : ℚ :=
  if s = "principiante" then 1
  else if s = "intermedio" then 2
  else if s = "avanzado" then 3
  else 2

/-- Source: `Mappings.GOAL_STR_TO_NUM.get(s, 2)` (src/config.py lines 247-252). -/
def goalStrToNum (s : String) : ℚ :=
  if s = "perder_peso" then 1
  else if s = "ganar_masa" then 2
  else if s = "resistencia" then 3
  else if s = "fuerza" then 4
  else 2

/-- Python 3 `round` to an integer: round half to even. -/
def pythonRound (q : ℚ) : ℤ :=
  let f := ⌊q⌋
  let frac := q - f
  if frac < 1/2 then f
  else if 1/2 < frac then f + 1
  else if f % 2 = 0 then f else f + 1

/-- Python `round(q, 2)`. -/
def round2 (q : ℚ) : ℚ := (pythonRound (q * 100) : ℚ) / 100

/-- The validated numeric user profile (src/models/profile.py).  The derived
fields `imc`, `nivel_num` and `objetivo_num` are recomputed from the stored
ones, never stored independently. -/
structure Profile where
  edad : ℚ
  peso : ℚ
  altura : ℚ
  nivel_str : String
  objetivo_str : String
  dias : ℚ
deriving DecidableEq

/-- Source: `imc = peso / altura²` (src/models/profile.py line 59). -/
def Profile.imc (p : Profile) : ℚ := p.peso / p.altura ^ 2

/-- Derived numeric level code (src/models/profile.py line 62). -/
def Profile.nivel_num (p : Profile) : ℚ := levelStrToNum p.nivel_str

/-- Source: `Profile.to_dict` (src/models/profile.py lines 98-116) restricted to the
keys the similarity computation reads; `imc` is rounded to 2 decimals as in
the source. -/
def Profile.to_dict (p : Profile) : PyDict :=
  { edad := some (PVal.num p.edad),
    imc := some (PVal.num (round2 p.imc)),
    nivel_num := some (PVal.num p.nivel_num),
    dias := some (PVal.num p.dias),
    objetivo_str := some (PVal.str p.objetivo_str) }

/-- An exercise (src/models/exercise.py): strength exercises carry
`series`/`repeticiones`/`descanso`, cardio exercises `duracion`/`intensidad`. -/
structure Exercise where
  ejercicio : String
  grupo : String
  series : Option ℤ := none
  repeticiones : Option String := none
  descanso : Option String := none
  duracion : Option String := none
  intensidad : Option String := none
  notas : Option String := none
deriving DecidableEq

/-- Source: `Exercise.is_cardio` (src/models/exercise.py lines 59-66). -/
def Exercise.is_cardio (e : Exercise) : Bool := e.grupo.toLower == "cardio"

/-- An exercise dictionary as produced by `Exercise.to_dict`
(src/models/exercise.py lines 97-120): optional keys are present only when
the field is set (and, for string fields, non-empty). -/
structure ExerciseDict where
  ejercicio : String
  grupo : String
  series : Option ℤ := none
  repeticiones : Option String := none
  descanso : Option String := none
  duracion : Option String := none
  intensidad : Option String := none
  notas : Option String := none
deriving DecidableEq

/-- Keep an optional string key only when it is set and non-empty (Python
`if self.field:`). -/
def strOptKeep (v : Option String) : Option String :=
  match v with
  | some s => if s = "" then none else some s
  | none => none

/-- Source: `Exercise.to_dict` (src/models/exercise.py lines 97-120). -/
def Exercise.to_dict (e : Exercise) : ExerciseDict :=
  { ejercicio := e.ejercicio,
    grupo := e.grupo,
    series := e.series,
    repeticiones := strOptKeep e.repeticiones,
    descanso := strOptKeep e.descanso,
    duracion := strOptKeep e.duracion,
    intensidad := strOptKeep e.intensidad,
    notas := strOptKeep e.notas }

/-- The free-form `metadatos` dictionary attached to a routine, restricted to
the keys the generators write and the learning service reads. -/
structure Metadatos where
  modo_generacion : Option String := none
  basado_en : Option ℕ := none
  confianza : Option ℚ := none
  innovacion_level : Option String := none
  parametros_optimizados : Option Bool := none
  confianza_parametros : Option ℚ := none
deriving DecidableEq

/-- The `metadatos` dictionary stored by `_generate_learned_routine`
(src/services/ai_service.py lines 419-424): the exploitation-mode generator
records the mode string `'aprendizaje'`. -/
def learned_routine_metadata (basado_en : ℕ) (confianza : ℚ) : Metadatos :=
  { modo_generacion := some "aprendizaje",
    basado_en := some basado_en,
    confianza := some confianza }

/-- The `metadatos` dictionary stored by `_generate_exploration_routine`
(src/services/ai_service.py lines 187-190). -/
def exploration_routine_metadata : Metadatos :=
  { modo_generacion := some "exploracion",
    innovacion_level := some "alta" }

/-- A weekly routine (src/gym_ai/models/routine.py).  `rutina_semanal` is the
ordered day-label → exercise-list mapping. -/
structure Routine where
  perfil : Profile
  rutina_semanal : List (String × List Exercise)
  estructura : String
  metadatos : Metadatos := {}
  routine_id : String := ""
  fecha_generacion : String := ""
  satisfaccion : Option ℤ := none
  comentarios : Option String := none
deriving DecidableEq

/-- Source: `Routine.is_successful` (src/gym_ai/models/routine.py lines 137-144):
feedback present and satisfaction at least 4. -/
def Routine.is_successful (r : Routine) : Bool :=
  match r.satisfaccion with
  | none => false
  | some s => decide (4 ≤ s)

/-- Source: `Routine.set_feedback` (src/gym_ai/models/routine.py lines 155-167):
raises unless `1 <= satisfaccion <= 5`, otherwise sets both feedback
fields. -/
def Routine.set_feedback (r : Routine) (satisfaccion : ℤ) (comentarios : String) :
    Except String Routine :=
  if ¬ (1 ≤ satisfaccion ∧ satisfaccion ≤ 5) then
    Except.error "La satisfacción debe estar entre 1 y 5"
  else
    Except.ok { r with satisfaccion := some satisfaccion, comentarios := some comentarios }

/-- Source: `Routine.get_total_days` (src/gym_ai/models/routine.py lines 67-74). -/
def Routine.get_total_days (r : Routine) : ℕ := r.rutina_semanal.length

/-- Source: `Routine.get_total_exercises` (src/gym_ai/models/routine.py lines 76-83). -/
def Routine.get_total_exercises (r : Routine) : ℕ :=
  (r.rutina_semanal.map (fun day => day.2.length)).sum

/-- Source: `Routine.get_exercises_per_day` (src/gym_ai/models/routine.py lines
85-95). -/
def Routine.get_exercises_per_day (r : Routine) : ℚ :=
  if r.get_total_days = 0 then 0
  else (r.get_total_exercises : ℚ) / (r.get_total_days : ℚ)

/-- A routine dictionary as produced by `Routine.to_dict`
(src/gym_ai/models/routine.py lines 190-209). -/
structure RoutineDict where
  routine_id : String
  perfil : PyDict
  rutina_semanal : List (String × List ExerciseDict)
  estructura : String
  metadatos : Metadatos
  fecha_generacion : String
  satisfaccion : Option ℤ
  comentarios : Option String
deriving DecidableEq

/-- Source: `Routine.to_dict` (src/gym_ai/models/routine.py lines 190-209). -/
def Routine.to_dict (r : Routine) : RoutineDict :=
  { routine_id := r.routine_id,
    perfil := r.perfil.to_dict,
    rutina_semanal := r.rutina_semanal.map (fun day => (day.1, day.2.map Exercise.to_dict)),
    estructura := r.estructura,
    metadatos := r.metadatos,
    fecha_generacion := r.fecha_generacion,
    satisfaccion := r.satisfaccion,
    comentarios := r.comentarios }

/-- A stored user experience (the dictionary built by
`LearningService.process_feedback`, src/services/learning_service.py lines
61-68).  `perfil := none` models a missing or empty profile dictionary. -/
structure Experience where
  perfil : Option PyDict := none
  rutina_id : String := ""
  rutina_exitosa : Option RoutineDict := none
  satisfaccion : Option ℚ := none
  comentarios : String := ""
  fecha : String := ""
deriving DecidableEq

/-- A success pattern (the dictionary built by
`LearningService._update_successful_patterns`,
src/services/learning_service.py lines 118-122). -/
structure Pattern where
  rutina : RoutineDict
  satisfaccion : ℤ
  fecha : String
deriving DecidableEq

/-- Source: `AIConfig` (src/config.py lines 62-90). -/
def AIConfig.LEARNING_RATE : ℚ := 1/10
def AIConfig.EXPLORATION_FACTOR : ℚ := 2/10
def AIConfig.SIMILARITY_HIGH : ℚ := 85/100
def AIConfig.SIMILARITY_MEDIUM : ℚ := 70/100
def AIConfig.SIMILARITY_LOW : ℚ := 50/100
def AIConfig.CONFIDENCE_LOW : ℚ := 40/100
def AIConfig.USERS_PER_GENERATION : ℕ := 10

/-- The learning state store (src/models/learning_system.py lines 17-42).
The two count dictionaries are modelled as total functions with the
defaultdict defaults (`[]` and `0`); `rutinas_generadas` entries are
modelled by their routine snapshot (the log is append-only and never read by
any verified operation). -/
structure LearningSystem where
  rutinas_generadas : List RoutineDict := []
  historico_usuarios : List Experience := []
  patrones_exitosos : String → List Pattern := fun _ => []
  combinaciones_ejercicios : String → String → ℕ := fun _ _ => 0
  parametros_optimos : List (String × ℚ) := []
  generacion : ℕ := 0
  tasa_aprendizaje : ℚ := AIConfig.LEARNING_RATE
  factor_exploracion : ℚ := AIConfig.EXPLORATION_FACTOR

/-- The dataclass defaults: the state created on first run. -/
def LearningSystem.initial : LearningSystem := {}

/-- Source: `LearningSystem.evolve_generation` (src/models/learning_system.py lines
115-133): increment the generation counter and, when at least 10 experiences
exist, nudge the exploration factor by the trailing-10 average
satisfaction. -/
def LearningSystem.evolve_generation (sys : LearningSystem) : LearningSystem :=
  let sys1 := { sys with generacion := sys.generacion + 1 }
  if 10 ≤ sys1.historico_usuarios.length then
    let recent := sys1.historico_usuarios.drop (sys1.historico_usuarios.length - 10)
    let avg_satisfaction : ℚ := (recent.map (fun u => u.satisfaccion.getD 3)).sum / 10
    if 4 ≤ avg_satisfaction then
      { sys1 with factor_exploracion := max (1/10) (sys1.factor_exploracion - 1/100) }
    else if avg_satisfaction ≤ 3 then
      { sys1 with factor_exploracion := min (4/10) (sys1.factor_exploracion + 2/100) }
    else sys1
  else sys1

/-- Source: `LearningSystem.add_user_experience` (src/models/learning_system.py lines
53-64): append the experience and evolve the generation when the new history
length is a multiple of `USERS_PER_GENERATION`. -/
def LearningSystem.add_user_experience (sys : LearningSystem) (e : Experience) :
    LearningSystem :=
  let sys1 := { sys with historico_usuarios := sys.historico_usuarios ++ [e] }
  if sys1.historico_usuarios.length % AIConfig.USERS_PER_GENERATION = 0 then
    sys1.evolve_generation
  else sys1

/-- Source: `LearningSystem.add_successful_pattern` (src/models/learning_system.py
lines 66-77): append the pattern to the list at `key`. -/
def LearningSystem.add_successful_pattern (sys : LearningSystem) (key : String)
    (pattern : Pattern) : LearningSystem :=
  { sys with patrones_exitosos := fun k =>
      if k = key then sys.patrones_exitosos k ++ [pattern] else sys.patrones_exitosos k }

/-- Source: `LearningSystem.increment_exercise_combination`
(src/models/learning_system.py lines 79-90). -/
def LearningSystem.increment_exercise_combination (sys : LearningSystem)
    (grupo ejercicio : String) : LearningSystem :=
  { sys with combinaciones_ejercicios := fun g e =>
      if g = grupo ∧ e = ejercicio then sys.combinaciones_ejercicios g e + 1
      else sys.combinaciones_ejercicios g e }

/-- Source: `LearningSystem.get_patterns_for_profile` (src/models/learning_system.py
lines 218-230). -/
def LearningSystem.get_patterns_for_profile (sys : LearningSystem)
    (nivel objetivo : String) : List Pattern :=
  sys.patrones_exitosos (nivel ++ "_" ++ objetivo)

/-- A user (src/models/user.py); only the owned profile is read by the
learning update engine. -/
structure User where
  nombre : String
  perfil : Profile
  limitaciones : String := ""
  fecha_inicio : String := ""
  user_id : String := ""

/-- The result flags of `LearningService.process_feedback`
(src/services/learning_service.py lines 74-79). -/
structure LearningResults where
  patrones_actualizados : Bool
  combinaciones_actualizadas : Bool
  exploracion_ajustada : Bool
  generacion_evolucionada : Bool
deriving DecidableEq

/-- Source: `LearningService._adjust_exploration_factor`
(src/services/learning_service.py lines 144-180): when satisfaction is at
least 4 and the routine metadata records mode `'explotacion'`, decrease the
exploration factor by 0.01 (floor 0.1); when satisfaction is at most 2,
increase it by 0.02 (ceiling 0.4); otherwise leave it unchanged.  The
returned flag is true only when the factor actually changed. -/
def adjust_exploration_factor (sys : LearningSystem) (satisfaction : ℤ)
    (routine : Routine) : LearningSystem × Bool :=
  let mode := routine.metadatos.modo_generacion.getD "exploracion"
  if 4 ≤ satisfaction ∧ mode = "explotacion" then
    let old_factor := sys.factor_exploracion
    let new_factor := max (1/10) (sys.factor_exploracion - 1/100)
    ({ sys with factor_exploracion := new_factor }, decide (old_factor ≠ new_factor))
  else if satisfaction ≤ 2 then
    let old_factor := sys.factor_exploracion
    let new_factor := min (4/10) (sys.factor_exploracion + 2/100)
    ({ sys with factor_exploracion := new_factor }, decide (old_factor ≠ new_factor))
  else (sys, false)

/-- Source: `LearningService._update_successful_patterns`
(src/services/learning_service.py lines 106-125): file the routine snapshot
under the `nivel_objetivo` key. -/
def update_successful_patterns (sys : LearningSystem) (profile : Profile)
    (routine : Routine) (satisfaction : ℤ) (fecha : String) : LearningSystem :=
  sys.add_successful_pattern (profile.nivel_str ++ "_" ++ profile.objetivo_str)
    { rutina := routine.to_dict, satisfaccion := satisfaction, fecha := fecha }

/-- Source: `LearningService._update_exercise_combinations`
(src/services/learning_service.py lines 127-142): bump the usage count of
every non-cardio exercise of the routine. -/
def update_exercise_combinations (sys : LearningSystem) (routine : Routine) :
    LearningSystem :=
  routine.rutina_semanal.foldl
    (fun s day =>
      day.2.foldl
        (fun s2 exercise =>
          if exercise.is_cardio then s2
          else s2.increment_exercise_combination exercise.grupo exercise.ejercicio)
        s)
    sys

/-- Source: `LearningService.process_feedback` (src/services/learning_service.py
lines 41-104): attach the feedback to the routine (propagating the
validation error), record the experience (which may evolve the generation),
then learn: patterns and exercise combinations for successful routines, and
the exploration-factor adjustment.  `fecha` stands for the
`datetime.now().isoformat()` timestamps. -/
def process_feedback (sys : LearningSystem) (user : User) (routine : Routine)
    (satisfaction : ℤ) (comments : String) (fecha : String) :
    Except String (LearningSystem × Routine × LearningResults) := do
  let r ← routine.set_feedback satisfaction comments
  let experience : Experience :=
    { perfil := some user.perfil.to_dict,
      rutina_id := r.routine_id,
      rutina_exitosa := if r.is_successful then some r.to_dict else none,
      satisfaccion := some (satisfaction : ℚ),
      comentarios := comments,
      fecha := fecha }
  let sys1 := sys.add_user_experience experience
  let sys2 := if r.is_successful then update_successful_patterns sys1 user.perfil r satisfaction fecha
              else sys1
  let sys3 := if r.is_successful then update_exercise_combinations sys2 r else sys2
  let adj := adjust_exploration_factor sys3 satisfaction r
  -- The source reads `current_gen` only after `add_user_experience` has
  -- already run (line 96), so the comparison on line 98 is between two reads
  -- of the same, final generation value.
  let current_gen := adj.1.generacion
  let results : LearningResults :=
    { patrones_actualizados := r.is_successful,
      combinaciones_actualizadas := r.is_successful,
      exploracion_ajustada := adj.2,
      generacion_evolucionada := decide (current_gen < adj.1.generacion) }
  pure (adj.1, r, results)

/-- The number of non-cardio slots of the routine holding exercise `e` of
muscle group `g` (specification-side counter used to state what
`_update_exercise_combinations` does). -/
def countNonCardio (r : Routine) (g e : String) : ℕ :=
  (r.rutina_semanal.map
    (fun day => (day.2.filter
      (fun ex => !ex.is_cardio && decide (ex.grupo = g) && decide (ex.ejercicio = e))).length)).sum

/-- Source: `calculate_average` (src/gym_ai/utils/calculations.py lines 324-336),
polymorphic so that it serves both the `ℚ`-valued and the `ℝ`-valued call
sites of the source. -/
def calculate_average {α : Type} [DivisionRing α] (values : List α) : α :=
  match values with
  | [] => 0
  | _ => values.sum / (values.length : α)

/-- Source: `calculate_median` (src/gym_ai/utils/calculations.py lines 339-358);
`np.median` as used by the inference service agrees with this definition on
lists of numbers. -/
def calculate_median (values : List ℚ) : ℚ :=
  match values with
  | [] => 0
  | _ =>
    let sorted_values := values.mergeSort (fun a b => decide (a ≤ b))
    let n := sorted_values.length
    if n % 2 = 0 then (sorted_values.getD (n / 2 - 1) 0 + sorted_values.getD (n / 2) 0) / 2
    else sorted_values.getD (n / 2) 0

/-- Source: `calculate_std_dev` (src/gym_ai/utils/calculations.py lines 361-377):
sample standard deviation, `0` for fewer than two values. -/
noncomputable def calculate_std_dev (values : List ℝ) : ℝ :=
  if values.length < 2 then 0
  else
    let avg := calculate_average values
    let variance := (values.map (fun x => (x - avg) ^ 2)).sum / ((values.length : ℝ) - 1)
    Real.sqrt variance

/-- The `umbrales` threshold dictionary of the inference service
(src/gym_ai/services/inference_service.py lines 47-56). -/
structure Umbrales where
  similitud_alta : ℝ
  similitud_media : ℝ
  similitud_baja : ℝ
  confianza_alta : ℝ
  confianza_media : ℝ
  confianza_baja : ℝ

/-- The thresholds the service is initialized with (`_initialize_thresholds`,
values from `AIConfig`). -/
noncomputable def serviceUmbrales : Umbrales :=
  { similitud_alta := (AIConfig.SIMILARITY_HIGH : ℝ),
    similitud_media := (AIConfig.SIMILARITY_MEDIUM : ℝ),
    similitud_baja := (AIConfig.SIMILARITY_LOW : ℝ),
    confianza_alta := 0.80,
    confianza_media := 0.60,
    confianza_baja := (AIConfig.CONFIDENCE_LOW : ℝ) }

/-- The `factors` dictionary built by `_analyze_satisfaction_factors`;
`none` models an absent key (the baseline result instead carries
`sin_datos`). -/
structure Factors where
  promedio_similares : Option ℝ := none
  cantidad_similares : Option ℕ := none
  similitud_promedio : Option ℝ := none
  ajuste_complejidad : Option ℝ := none
  patron_existe : Option Bool := none
  cantidad_patrones : Option ℕ := none
  sin_datos : Option Bool := none

/-- Source: `calculate_bayesian_adjustment` (src/gym_ai/utils/calculations.py lines
173-219): sum of the staged adjustments for average similarity, sample
count, complexity fit and consolidated patterns. -/
noncomputable def calculate_bayesian_adjustment (factors : Factors)
    (thresholds : Umbrales) : ℝ :=
  let adjustments : List ℝ :=
    ((match factors.similitud_promedio with
     | some sim =>
       if thresholds.similitud_alta < sim then [0.3]
       else if thresholds.similitud_media < sim then [0.1]
       else [-0.1]
     | none => []) : List ℝ) ++
    ((match factors.cantidad_similares with
     | some cantidad =>
       if 5 ≤ cantidad then [0.2] else if 3 ≤ cantidad then [0.1] else []
     | none => []) : List ℝ) ++
    ((match factors.ajuste_complejidad with
     | some comp =>
       if (0.8 : ℝ) < comp then [0.2] else if (0.6 : ℝ) < comp then [0.0] else [-0.2]
     | none => []) : List ℝ) ++
    ((if factors.patron_existe.getD false = true ∧ 5 ≤ factors.cantidad_patrones.getD 0
     then [0.3] else []) : List ℝ)
  adjustments.sum

/-- Source: `calculate_confidence_score` (src/gym_ai/utils/calculations.py lines
222-260): base 0.5 plus staged factors, clamped to 1. -/
noncomputable def calculate_confidence_score (n_samples : ℕ) (similarity_avg : ℝ)
    (std_dev : Option ℝ) : ℝ :=
  let c1 : ℝ := 0.5 +
    (if 10 ≤ n_samples then 0.3 else if 5 ≤ n_samples then 0.2
     else if 3 ≤ n_samples then 0.1 else 0)
  let c2 : ℝ := c1 +
    (if (AIConfig.SIMILARITY_HIGH : ℝ) < similarity_avg then 0.3
     else if (AIConfig.SIMILARITY_MEDIUM : ℝ) < similarity_avg then 0.2
     else if (AIConfig.SIMILARITY_LOW : ℝ) < similarity_avg then 0.1 else 0)
  let c3 : ℝ := c2 +
    (match std_dev with
     | some sd => if sd < 0.5 then 0.2 else if sd < 1.0 then 0.1 else 0
     | none => 0)
  min 1.0 c3

/-- An entry of the similar-user list built by `_find_similar_users`. -/
structure SimilarUser where
  usuario : Experience
  similitud : ℝ

/-- Source: `InferenceService._find_similar_users`
(src/gym_ai/services/inference_service.py lines 125-160): keep history
entries with a non-empty profile whose similarity reaches the threshold,
sort by similarity descending, truncate to the top 10. -/
noncomputable def find_similar_users (sys : LearningSystem) (profile : Profile)
    (threshold : ℝ) : List SimilarUser :=
  let similar := sys.historico_usuarios.filterMap (fun user_exp =>
    match user_exp.perfil with
    | none => none
    | some user_profile_data =>
      let similarity := calculate_profile_similarity profile.to_dict user_profile_data
      if threshold ≤ similarity then some ⟨user_exp, similarity⟩ else none)
  (similar.mergeSort (fun a b => decide (b.similitud ≤ a.similitud))).take 10

/-- Source: `InferenceService._get_ideal_complexity`
(src/gym_ai/services/inference_service.py lines 202-209). -/
def get_ideal_complexity (profile : Profile) : ℚ :=
  if profile.nivel_str = "principiante" then 4
  else if profile.nivel_str = "intermedio" then 5
  else if profile.nivel_str = "avanzado" then 6
  else 5

/-- Source: `InferenceService._analyze_satisfaction_factors`
(src/gym_ai/services/inference_service.py lines 162-200). -/
noncomputable def analyze_satisfaction_factors (sys : LearningSystem)
    (profile : Profile) (routine : Option Routine)
    (similar_users : List SimilarUser) : Factors :=
  let base : Factors :=
    match similar_users with
    | [] =>
      { promedio_similares := some 3.5, cantidad_similares := some 0,
        similitud_promedio := some 0 }
    | _ =>
      { promedio_similares := some (calculate_average
          (similar_users.map (fun u => ((u.usuario.satisfaccion.getD 3 : ℚ) : ℝ)))),
        cantidad_similares := some similar_users.length,
        similitud_promedio := some (calculate_average
          (similar_users.map SimilarUser.similitud)) }
  let ajuste : ℝ :=
    match routine with
    | some r =>
      let complexity := ((r.get_exercises_per_day : ℚ) : ℝ)
      let ideal_complexity := ((get_ideal_complexity profile : ℚ) : ℝ)
      1 - |complexity - ideal_complexity| / ideal_complexity
    | none => 1.0
  let patterns := sys.get_patterns_for_profile profile.nivel_str profile.objetivo_str
  { base with
    ajuste_complejidad := some ajuste,
    patron_existe := some (decide (0 < patterns.length)),
    cantidad_patrones := some patterns.length }

/-- Source: `InferenceService._calculate_bayesian_prediction`
(src/gym_ai/services/inference_service.py lines 211-228): prior (average
satisfaction of the similar users) plus the Bayesian adjustment, clamped to
`[1, 5]`. -/
noncomputable def calculate_bayesian_prediction (similar_users : List SimilarUser)
    (factors : Factors) (thresholds : Umbrales) : ℝ :=
  match similar_users with
  | [] => 3.5
  | _ =>
    let prior := calculate_average
      (similar_users.map (fun u => ((u.usuario.satisfaccion.getD 3 : ℚ) : ℝ)))
    let adjustment := calculate_bayesian_adjustment factors thresholds
    let posterior := prior + adjustment
    max 1.0 (min 5.0 posterior)

/-- Source: `InferenceService._calculate_prediction_confidence`
(src/gym_ai/services/inference_service.py lines 230-244). -/
noncomputable def calculate_prediction_confidence (similar_users : List SimilarUser)
    (factors : Factors) : ℝ :=
  match similar_users with
  | [] => 0.3
  | _ =>
    let satisfactions := similar_users.map (fun u => ((u.usuario.satisfaccion.getD 3 : ℚ) : ℝ))
    let std_dev := if 1 < satisfactions.length then calculate_std_dev satisfactions else 1.0
    calculate_confidence_score similar_users.length (factors.similitud_promedio.getD 0)
      (some std_dev)

/-- Python 3 `round` on a real number: round half to even. -/
noncomputable def pythonRoundR (x : ℝ) : ℤ :=
  let f := ⌊x⌋
  let frac := x - f
  if frac < 1/2 then f
  else if 1/2 < frac then f + 1
  else if f % 2 = 0 then f else f + 1

/-- Python `round(x, 2)` on a real number. -/
noncomputable def round2R (x : ℝ) : ℝ := (pythonRoundR (x * 100) : ℝ) / 100

/-- The result dictionary of `predict_satisfaction`. -/
structure PredictionResult where
  satisfaccion_predicha : ℝ
  confianza : ℝ
  factores : Factors
  recomendacion : Bool
  usuarios_similares : ℕ
  metodo : String

/-- Source: `InferenceService._baseline_prediction`
(src/gym_ai/services/inference_service.py lines 114-123). -/
def baseline_prediction : PredictionResult :=
  { satisfaccion_predicha := 3.5,
    confianza := 0.3,
    factores := { sin_datos := some true },
    recomendacion := true,
    usuarios_similares := 0,
    metodo := "baseline" }

/-- Source: `InferenceService.predict_satisfaction`
(src/gym_ai/services/inference_service.py lines 62-112): baseline when no
similar user clears the 0.7 threshold, otherwise the Bayesian prediction
with its confidence and recommendation flag. -/
noncomputable def predict_satisfaction (sys : LearningSystem) (profile : Profile)
    (routine : Option Routine) : PredictionResult :=
  let similar_users := find_similar_users sys profile 0.7
  match similar_users with
  | [] => baseline_prediction
  | _ =>
    let factors := analyze_satisfaction_factors sys profile routine similar_users
    let predicted_satisfaction := calculate_bayesian_prediction similar_users factors serviceUmbrales
    let confidence := calculate_prediction_confidence similar_users factors
    let recommend :=
      decide ((3.5 : ℝ) ≤ predicted_satisfaction ∧ serviceUmbrales.confianza_baja ≤ confidence)
    { satisfaccion_predicha := round2R predicted_satisfaction,
      confianza := round2R confidence,
      factores := factors,
      recomendacion := recommend,
      usuarios_similares := similar_users.length,
      metodo := "bayesiano" }

/-- One goal entry of `RoutineConfig.PARAMS_BY_GOAL` (src/config.py lines
114-143). -/
structure GoalParams where
  reps_min : ℤ
  reps_max : ℤ
  rest_min : ℤ
  rest_max : ℤ
  cardio_probability : ℚ
deriving DecidableEq

/-- Source: `RoutineConfig.PARAMS_BY_GOAL` (src/config.py lines 114-143). -/
def RoutineConfig.PARAMS_BY_GOAL (objetivo : String) : Option GoalParams :=
  if objetivo = "perder_peso" then some ⟨12, 20, 30, 60, 8/10⟩
  else if objetivo = "ganar_masa" then some ⟨8, 12, 60, 90, 3/10⟩
  else if objetivo = "resistencia" then some ⟨15, 25, 20, 45, 9/10⟩
  else if objetivo = "fuerza" then some ⟨4, 8, 120, 180, 3/10⟩
  else none

/-- Source: `RoutineConfig.SERIES_BY_LEVEL` (src/config.py lines 107-111). -/
def RoutineConfig.SERIES_BY_LEVEL (nivel : String) : Option ℤ :=
  if nivel = "principiante" then some 3
  else if nivel = "intermedio" then some 4
  else if nivel = "avanzado" then some 5
  else none

/-- The result dictionary of `infer_optimal_parameters`. -/
structure OptimalParams where
  series : ℤ
  repeticiones_min : ℤ
  repeticiones_max : ℤ
  descanso : String
  confianza : ℝ
  basado_en : ℕ
  metodo : String

/-- The `series`/`reps` lists accumulated by
`_extract_parameters_from_routines`. -/
structure ExtractedParams where
  series : List ℚ
  reps : List ℚ
deriving DecidableEq

/-- The rep-range midpoint extraction of `_extract_parameters_from_routines`
(src/gym_ai/services/inference_service.py lines 306-315): when the string
contains `-`, average its first two integer parts; any parse failure yields
nothing. -/
def extract_reps_avg (reps_str : String) : Option ℚ :=
  let parts := reps_str.splitOn "-"
  if 2 ≤ parts.length then
    match (parts.getD 0 "").toInt?, (parts.getD 1 "").toInt? with
    | some a, some b => some (((a : ℚ) + (b : ℚ)) / 2)
    | _, _ => none
  else none

/-- Source: `InferenceService._extract_parameters_from_routines`
(src/gym_ai/services/inference_service.py lines 291-320): collect the
`series` values and rep-range midpoints of every exercise of every recorded
successful routine. -/
def extract_parameters_from_routines (successful_users : List SimilarUser) :
    ExtractedParams :=
  successful_users.foldl
    (fun acc u =>
      match u.usuario.rutina_exitosa with
      | none => acc
      | some routine_data =>
        routine_data.rutina_semanal.foldl
          (fun acc2 day =>
            day.2.foldl
              (fun acc3 ex =>
                let acc4 := match ex.series with
                  | some s => { acc3 with series := acc3.series ++ [(s : ℚ)] }
                  | none => acc3
                match ex.repeticiones with
                | some reps_str =>
                  match extract_reps_avg reps_str with
                  | some avg => { acc4 with reps := acc4.reps ++ [avg] }
                  | none => acc4
                | none => acc4)
              acc2)
          acc)
    ⟨[], []⟩

/-- Source: `InferenceService._infer_rest_time`
(src/gym_ai/services/inference_service.py lines 364-375). -/
def infer_rest_time (profile : Profile) (series : ℤ) (reps : ℤ) : String :=
  if profile.objetivo_str = "fuerza" ∨ 5 ≤ series then "120-180s"
  else if profile.objetivo_str = "ganar_masa" then "60-90s"
  else if profile.objetivo_str = "resistencia" ∨ 15 ≤ reps then "30-45s"
  else "45-60s"

/-- The `series`/rep-range/rest core computed by
`_calculate_optimal_values`. -/
structure OptimalCore where
  series : ℤ
  repeticiones_min : ℤ
  repeticiones_max : ℤ
  descanso : String
deriving DecidableEq

/-- Source: `InferenceService._calculate_optimal_values`
(src/gym_ai/services/inference_service.py lines 322-340): medians of the
extracted values (defaults 4 and 10), rep range `median ± 2` with minimum 4,
rest time from the rule table. -/
def calculate_optimal_values (params : ExtractedParams) (profile : Profile) :
    OptimalCore :=
  let series : ℤ := match params.series with
    | [] => 4
    | _ => pythonRound (calculate_median params.series)
  let reps_median : ℤ := match params.reps with
    | [] => 10
    | _ => pythonRound (calculate_median params.reps)
  { series := series,
    repeticiones_min := max 4 (reps_median - 2),
    repeticiones_max := reps_median + 2,
    descanso := infer_rest_time profile series reps_median }

/-- Source: `InferenceService._parameters_by_heuristics`
(src/gym_ai/services/inference_service.py lines 342-362): the static tables
keyed by goal (default `ganar_masa`) and level (default 4), with confidence
fixed at 0.5. -/
noncomputable def parameters_by_heuristics (profile : Profile) : OptimalParams :=
  let params_config := (RoutineConfig.PARAMS_BY_GOAL profile.objetivo_str).getD
    ⟨8, 12, 60, 90, 3/10⟩
  let series := (RoutineConfig.SERIES_BY_LEVEL profile.nivel_str).getD 4
  { series := series,
    repeticiones_min := params_config.reps_min,
    repeticiones_max := params_config.reps_max,
    descanso := toString params_config.rest_min ++ "-" ++ toString params_config.rest_max ++ "s",
    confianza := 0.5,
    basado_en := 0,
    metodo := "heuristica" }

/-- Source: `InferenceService.infer_optimal_parameters`
(src/gym_ai/services/inference_service.py lines 250-289): similar users at
threshold 0.75 filtered to satisfaction at least 4; heuristic fallback when
none remain, otherwise medians of the successful routines with confidence
`min(1, n/10)`. -/
noncomputable def infer_optimal_parameters (sys : LearningSystem) (profile : Profile) :
    OptimalParams :=
  let similar_users := find_similar_users sys profile 0.75
  let successful_users := similar_users.filter
    (fun u => decide ((4 : ℚ) ≤ u.usuario.satisfaccion.getD 0))
  match successful_users with
  | [] => parameters_by_heuristics profile
  | _ =>
    let params := extract_parameters_from_routines successful_users
    let optimal := calculate_optimal_values params profile
    let confidence : ℝ := min 1.0 ((successful_users.length : ℝ) / 10)
    { series := optimal.series,
      repeticiones_min := optimal.repeticiones_min,
      repeticiones_max := optimal.repeticiones_max,
      descanso := optimal.descanso,
      confianza := round2R confidence,
      basado_en := successful_users.length,
      metodo := "inferencia_datos" }

/-- One anomaly record of `detect_anomalies`. -/
structure Anomaly where
  tipo : String
  descripcion : String
  recomendacion : String
deriving DecidableEq

/-- The result dictionary of `detect_anomalies`; `satisfaccion_promedio` is
absent (`none`) on the short-history early return. -/
structure AnomalyReport where
  anomalias : List Anomaly
  estado : String
  satisfaccion_promedio : Option ℚ
deriving DecidableEq

/-- The strict-descent check of the declining-trend anomaly:
`all(l[i] > l[i+1])` over consecutive pairs. -/
def strictlyDecreasing (l : List ℚ) : Bool :=
  (l.zip l.tail).all (fun p => decide (p.2 < p.1))

/-- Source: `InferenceService.detect_anomalies`
(src/gym_ai/services/inference_service.py lines 468-518): with fewer than 3
feedback entries, no check runs and the report is empty/normal; otherwise
the three independent checks (declining trend over the last 3, abrupt drop
over the last 2, plateau of the overall average with at least 5 entries)
each contribute their fixed anomaly record. -/
def detect_anomalies (profile : Profile) (feedback_history : List Experience) :
    AnomalyReport :=
  if feedback_history.length < 3 then
    { anomalias := [], estado := "normal", satisfaccion_promedio := none }
  else
    let satisfactions := feedback_history.map (fun f => f.satisfaccion.getD 3)
    let a1 : List Anomaly :=
      if 3 ≤ satisfactions.length ∧
          strictlyDecreasing (satisfactions.drop (satisfactions.length - 3)) then
        [⟨"tendencia_negativa", "Satisfacción en descenso constante",
          "Revisar intensidad o variedad de ejercicios"⟩]
      else []
    let a2 : List Anomaly :=
      if 2 ≤ satisfactions.length ∧
          4 ≤ satisfactions.getD (satisfactions.length - 2) 3 ∧
          satisfactions.getD (satisfactions.length - 1) 3 ≤ 2 then
        [⟨"caida_abrupta", "Caída súbita en satisfacción",
          "Verificar posibles lesiones o sobreentrenamiento"⟩]
      else []
    let avg := calculate_average satisfactions
    let a3 : List Anomaly :=
      if (3 ≤ avg ∧ avg ≤ 7/2) ∧ 5 ≤ satisfactions.length then
        [⟨"estancamiento", "Satisfacción estancada en nivel medio",
          "Considerar cambio de enfoque o metodología"⟩]
      else []
    let anomalies := a1 ++ a2 ++ a3
    { anomalias := anomalies,
      estado := if anomalies.isEmpty then "normal" else "anomalo",
      satisfaccion_promedio := some avg }

/-! Concrete sample data used by the witness theorems. -/

/-- A sample validated profile (intermediate level, mass gain, 4 days). -/
def wProfile : Profile :=
  { edad := 25, peso := 70, altura := 7/4, nivel_str := "intermedio",
    objetivo_str := "ganar_masa", dias := 4 }

/-- A sample user owning `wProfile`. -/
def wUser : User := { nombre := "Ana", perfil := wProfile }

/-- A sample strength exercise. -/
def wExercise : Exercise :=
  { ejercicio := "Press banca", grupo := "pecho", series := some 4,
    repeticiones := some "8-12", descanso := some "60-90s" }

/-- A sample one-day routine without feedback. -/
def wRoutine : Routine :=
  { perfil := wProfile, rutina_semanal := [("Dia 1", [wExercise])],
    estructura := "fullbody", routine_id := "RUT_1" }

/-- Source: `wRoutine` as produced by the exploitation-mode generator: its metadata
records `modo_generacion = 'aprendizaje'`. -/
def wLearnedRoutine : Routine :=
  { wRoutine with metadatos := learned_routine_metadata 3 (3/10) }

/-- Claim C1 (code bug in the source): a routine produced by
`_generate_learned_routine` carries the mode string `'aprendizaje'` in its
metadata, but `_adjust_exploration_factor` compares the recorded mode
against `'explotacion'`, so feedback with satisfaction 5 on such a routine
leaves the exploration factor at 0.2 instead of decreasing it to 0.19. -/
theorem learned_mode_feedback_leaves_exploration_factor :
    (learned_routine_metadata 3 (3/10)).modo_generacion = some "aprendizaje" ∧
    LearningSystem.initial.factor_exploracion = 2/10 ∧ (1/10 : ℚ) < (2/10 : ℚ) ∧
    (adjust_exploration_factor LearningSystem.initial 5 wLearnedRoutine).1.factor_exploracion
      = 2/10 := by
  refine ⟨rfl, rfl, by norm_num, ?_⟩
  simp [adjust_exploration_factor, wLearnedRoutine, learned_routine_metadata,
    LearningSystem.initial, AIConfig.EXPLORATION_FACTOR]

/-- Claim C8: with fewer than 3 feedback entries, `detect_anomalies` returns
the empty anomaly list and state `normal` (and no average), performing no
check. -/
theorem detect_anomalies_short_history (profile : Profile)
    (feedback_history : List Experience) (h : feedback_history.length < 3) :
    detect_anomalies profile feedback_history =
      { anomalias := [], estado := "normal", satisfaccion_promedio := none } := by
  unfold detect_anomalies
  rw [if_pos h]

/-- Witness for C8: the empty history. -/
theorem detect_anomalies_short_history_witness :
    ([] : List Experience).length < 3 ∧
    detect_anomalies wProfile [] =
      { anomalias := [], estado := "normal", satisfaccion_promedio := none } :=
  ⟨by decide, detect_anomalies_short_history wProfile [] (by decide)⟩

/-- Claim C9: `set_feedback` fails exactly when the satisfaction is outside
`[1, 5]`; on success it sets both feedback fields to the given values, and
on failure it returns only the error, the routine value being untouched. -/
theorem set_feedback_validates_and_sets (r : Routine) (s : ℤ) (c : String) :
    (1 ≤ s ∧ s ≤ 5 →
      r.set_feedback s c =
        Except.ok { r with satisfaccion := some s, comentarios := some c }) ∧
    (¬ (1 ≤ s ∧ s ≤ 5) →
      r.set_feedback s c = Except.error "La satisfacción debe estar entre 1 y 5") := by
  constructor
  · intro h
    unfold Routine.set_feedback
    rw [if_neg (not_not_intro h)]
  · intro h
    unfold Routine.set_feedback
    rw [if_pos h]

/-- Witness for C9: satisfaction 5 succeeds, satisfaction 6 fails. -/
theorem set_feedback_validates_and_sets_witness :
    ((1 ≤ (5 : ℤ) ∧ (5 : ℤ) ≤ 5) ∧
      wRoutine.set_feedback 5 "ok" =
        Except.ok { wRoutine with satisfaccion := some 5, comentarios := some "ok" }) ∧
    (¬ (1 ≤ (6 : ℤ) ∧ (6 : ℤ) ≤ 5) ∧
      wRoutine.set_feedback 6 "x" = Except.error "La satisfacción debe estar entre 1 y 5") :=
  ⟨⟨by decide, (set_feedback_validates_and_sets wRoutine 5 "ok").1 (by decide)⟩,
   ⟨by decide, (set_feedback_validates_and_sets wRoutine 6 "x").2 (by decide)⟩⟩

/-! Helper lemmas about the learning-state operations. -/

lemma evolve_generation_generacion (sys : LearningSystem) :
    sys.evolve_generation.generacion = sys.generacion + 1 := by
  unfold LearningSystem.evolve_generation
  dsimp only
  split
  · split
    · rfl
    · split <;> rfl
  · rfl

lemma evolve_generation_historico (sys : LearningSystem) :
    sys.evolve_generation.historico_usuarios = sys.historico_usuarios := by
  unfold LearningSystem.evolve_generation
  dsimp only
  split
  · split
    · rfl
    · split <;> rfl
  · rfl

lemma add_user_experience_historico (sys : LearningSystem) (e : Experience) :
    (sys.add_user_experience e).historico_usuarios = sys.historico_usuarios ++ [e] := by
  unfold LearningSystem.add_user_experience
  dsimp only
  split
  · exact evolve_generation_historico _
  · rfl

lemma add_user_experience_length (sys : LearningSystem) (e : Experience) :
    (sys.add_user_experience e).historico_usuarios.length =
      sys.historico_usuarios.length + 1 := by
  rw [add_user_experience_historico]
  simp

lemma add_user_experience_generacion (sys : LearningSystem) (e : Experience) :
    (sys.add_user_experience e).generacion =
      sys.generacion + if (sys.historico_usuarios.length + 1) % 10 = 0 then 1 else 0 := by
  unfold LearningSystem.add_user_experience
  dsimp only
  simp only [List.length_append, List.length_cons, List.length_nil, Nat.zero_add]
  rw [show AIConfig.USERS_PER_GENERATION = 10 from rfl]
  split_ifs with h
  · rw [evolve_generation_generacion]
  · rfl

lemma foldl_add_user_experience_generacion (es : List Experience) (sys : LearningSystem) :
    (es.foldl LearningSystem.add_user_experience sys).generacion +
        sys.historico_usuarios.length / 10 =
      sys.generacion + (sys.historico_usuarios.length + es.length) / 10 := by
  induction es generalizing sys with
  | nil => simp
  | cons e es ih =>
    rw [List.foldl_cons]
    have h1 := ih (sys.add_user_experience e)
    rw [add_user_experience_length, add_user_experience_generacion] at h1
    have h2 : (sys.historico_usuarios.length + 1) / 10 =
        sys.historico_usuarios.length / 10 +
          if (sys.historico_usuarios.length + 1) % 10 = 0 then 1 else 0 := by
      rw [Nat.succ_div]
      congr 1
      simp [Nat.dvd_iff_mod_eq_zero]
    simp only [List.length_cons]
    split_ifs at h1 h2 with hmod <;> omega

/-- Claim C2: `add_user_experience` increments the generation counter by
exactly 1 on every call that makes the history length a multiple of 10 and
by 0 on every other call; consequently, starting from the empty store, after
`n` calls the generation equals `n / 10`. -/
theorem generation_counts_experiences :
    (∀ (sys : LearningSystem) (e : Experience),
      (sys.add_user_experience e).generacion =
        sys.generacion + if (sys.historico_usuarios.length + 1) % 10 = 0 then 1 else 0) ∧
    (∀ es : List Experience,
      (es.foldl LearningSystem.add_user_experience LearningSystem.initial).generacion =
        es.length / 10) := by
  refine ⟨add_user_experience_generacion, fun es => ?_⟩
  have h := foldl_add_user_experience_generacion es LearningSystem.initial
  simpa [LearningSystem.initial] using h

/-- The exploration-factor invariant of the spec: `0.1 ≤ factor ≤ 0.4`. -/
def factorInRange (sys : LearningSystem) : Prop :=
  1/10 ≤ sys.factor_exploracion ∧ sys.factor_exploracion ≤ 4/10

lemma adjust_exploration_factor_range (sys : LearningSystem) (sat : ℤ) (r : Routine)
    (h : factorInRange sys) : factorInRange (adjust_exploration_factor sys sat r).1 := by
  obtain ⟨h1, h2⟩ := h
  unfold adjust_exploration_factor factorInRange
  dsimp only
  split_ifs with hc1 hc2
  · exact ⟨le_max_left _ _, max_le (by norm_num) (by linarith)⟩
  · exact ⟨le_min (by norm_num) (by linarith), min_le_left _ _⟩
  · exact ⟨h1, h2⟩

lemma evolve_generation_range (sys : LearningSystem) (h : factorInRange sys) :
    factorInRange sys.evolve_generation := by
  obtain ⟨h1, h2⟩ := h
  unfold LearningSystem.evolve_generation factorInRange
  dsimp only
  split_ifs with hl h4 h3
  · exact ⟨le_max_left _ _, max_le (by norm_num) (by linarith)⟩
  · exact ⟨le_min (by norm_num) (by linarith), min_le_left _ _⟩
  · exact ⟨h1, h2⟩
  · exact ⟨h1, h2⟩

lemma add_user_experience_range (sys : LearningSystem) (e : Experience)
    (h : factorInRange sys) : factorInRange (sys.add_user_experience e) := by
  unfold LearningSystem.add_user_experience
  dsimp only
  split_ifs with hc
  · exact evolve_generation_range _ h
  · exact h

lemma foldl_increment_proj (exs : List Exercise) (s : LearningSystem) :
    ((exs.foldl (fun s2 exercise => if exercise.is_cardio then s2
        else s2.increment_exercise_combination exercise.grupo exercise.ejercicio)
        s).factor_exploracion = s.factor_exploracion) ∧
    ((exs.foldl (fun s2 exercise => if exercise.is_cardio then s2
        else s2.increment_exercise_combination exercise.grupo exercise.ejercicio)
        s).generacion = s.generacion) ∧
    ((exs.foldl (fun s2 exercise => if exercise.is_cardio then s2
        else s2.increment_exercise_combination exercise.grupo exercise.ejercicio)
        s).patrones_exitosos = s.patrones_exitosos) ∧
    ((exs.foldl (fun s2 exercise => if exercise.is_cardio then s2
        else s2.increment_exercise_combination exercise.grupo exercise.ejercicio)
        s).historico_usuarios = s.historico_usuarios) := by
  induction exs generalizing s with
  | nil => exact ⟨rfl, rfl, rfl, rfl⟩
  | cons ex exs ih =>
    rw [List.foldl_cons]
    refine ⟨?_, ?_, ?_, ?_⟩
    · rw [(ih _).1]
      by_cases h : ex.is_cardio <;> simp [h, LearningSystem.increment_exercise_combination]
    · rw [(ih _).2.1]
      by_cases h : ex.is_cardio <;> simp [h, LearningSystem.increment_exercise_combination]
    · rw [(ih _).2.2.1]
      by_cases h : ex.is_cardio <;> simp [h, LearningSystem.increment_exercise_combination]
    · rw [(ih _).2.2.2]
      by_cases h : ex.is_cardio <;> simp [h, LearningSystem.increment_exercise_combination]

lemma update_exercise_combinations_proj (sys : LearningSystem) (r : Routine) :
    ((update_exercise_combinations sys r).factor_exploracion = sys.factor_exploracion) ∧
    ((update_exercise_combinations sys r).generacion = sys.generacion) ∧
    ((update_exercise_combinations sys r).patrones_exitosos = sys.patrones_exitosos) ∧
    ((update_exercise_combinations sys r).historico_usuarios = sys.historico_usuarios) := by
  unfold update_exercise_combinations
  generalize r.rutina_semanal = days
  induction days generalizing sys with
  | nil => exact ⟨rfl, rfl, rfl, rfl⟩
  | cons day days ih =>
    rw [List.foldl_cons]
    have hinner := foldl_increment_proj day.2 sys
    have houter := ih (day.2.foldl (fun s2 exercise => if exercise.is_cardio then s2
      else s2.increment_exercise_combination exercise.grupo exercise.ejercicio) sys)
    exact ⟨houter.1.trans hinner.1, houter.2.1.trans hinner.2.1,
      houter.2.2.1.trans hinner.2.2.1, houter.2.2.2.trans hinner.2.2.2⟩

lemma factorInRange_of_eq {a b : LearningSystem}
    (hf : a.factor_exploracion = b.factor_exploracion) (h : factorInRange b) :
    factorInRange a := by
  unfold factorInRange at *
  rw [hf]
  exact h

lemma process_feedback_range (sys : LearningSystem) (user : User) (routine : Routine)
    (sat : ℤ) (c fecha : String) (out : LearningSystem × Routine × LearningResults)
    (h : factorInRange sys)
    (hok : process_feedback sys user routine sat c fecha = Except.ok out) :
    factorInRange out.1 := by
  cases hsf : routine.set_feedback sat c with
  | error msg => simp [process_feedback, hsf, bind, Except.bind] at hok
  | ok r =>
    simp only [process_feedback, hsf, bind, Except.bind, pure, Except.pure,
      Except.ok.injEq] at hok
    subst hok
    apply adjust_exploration_factor_range
    by_cases hs : r.is_successful = true
    · simp only [hs, if_pos]
      exact factorInRange_of_eq (update_exercise_combinations_proj _ r).1
        (add_user_experience_range _ _ h)
    · simp only [if_neg hs]
      exact add_user_experience_range _ _ h

/-- Claim C3: `0.1 ≤ explorationFactor ≤ 0.4` is an invariant: it holds for
the initial value 0.2 and is preserved by the per-feedback adjustment, by
the generation-evolution nudge, by `add_user_experience` (which may trigger
the nudge), and by a whole `process_feedback` call (where both adjustments
can fire). -/
theorem exploration_factor_invariant :
    factorInRange LearningSystem.initial ∧
    (∀ (sys : LearningSystem) (sat : ℤ) (r : Routine), factorInRange sys →
      factorInRange (adjust_exploration_factor sys sat r).1) ∧
    (∀ sys : LearningSystem, factorInRange sys → factorInRange sys.evolve_generation) ∧
    (∀ (sys : LearningSystem) (e : Experience), factorInRange sys →
      factorInRange (sys.add_user_experience e)) ∧
    (∀ (sys : LearningSystem) (user : User) (routine : Routine) (sat : ℤ)
      (c fecha : String) (out : LearningSystem × Routine × LearningResults),
      factorInRange sys → process_feedback sys user routine sat c fecha = Except.ok out →
      factorInRange out.1) :=
  ⟨by norm_num [factorInRange, LearningSystem.initial, AIConfig.EXPLORATION_FACTOR],
   adjust_exploration_factor_range, evolve_generation_range,
   add_user_experience_range, process_feedback_range⟩

/-- A throwaway default used only to extract the `ok` payload of concrete
`process_feedback` runs. -/
def junkOut : LearningSystem × Routine × LearningResults :=
  (LearningSystem.initial, wRoutine, ⟨false, false, false, false⟩)

/-- The concrete output of processing satisfaction-5 feedback on `wRoutine`
from the empty store. -/
def wOut : LearningSystem × Routine × LearningResults :=
  (process_feedback LearningSystem.initial wUser wRoutine 5 "hoy" "2024-01-01").toOption.getD junkOut

/-- Witness for C3: the initial store is in range, and processing a concrete
feedback keeps it in range. -/
theorem exploration_factor_invariant_witness :
    factorInRange LearningSystem.initial ∧
    process_feedback LearningSystem.initial wUser wRoutine 5 "hoy" "2024-01-01" = Except.ok wOut ∧
    factorInRange wOut.1 :=
  ⟨by norm_num [factorInRange, LearningSystem.initial, AIConfig.EXPLORATION_FACTOR],
   rfl,
   exploration_factor_invariant.2.2.2.2 LearningSystem.initial wUser wRoutine 5 "hoy"
     "2024-01-01" wOut
     (by norm_num [factorInRange, LearningSystem.initial, AIConfig.EXPLORATION_FACTOR]) rfl⟩

lemma adjust_exploration_factor_proj (sys : LearningSystem) (sat : ℤ) (r : Routine) :
    (adjust_exploration_factor sys sat r).1.patrones_exitosos = sys.patrones_exitosos ∧
    (adjust_exploration_factor sys sat r).1.combinaciones_ejercicios =
      sys.combinaciones_ejercicios := by
  unfold adjust_exploration_factor
  dsimp only
  split_ifs <;> exact ⟨rfl, rfl⟩

lemma evolve_generation_proj (sys : LearningSystem) :
    sys.evolve_generation.patrones_exitosos = sys.patrones_exitosos ∧
    sys.evolve_generation.combinaciones_ejercicios = sys.combinaciones_ejercicios := by
  unfold LearningSystem.evolve_generation
  dsimp only
  split_ifs <;> exact ⟨rfl, rfl⟩

lemma add_user_experience_proj (sys : LearningSystem) (e : Experience) :
    (sys.add_user_experience e).patrones_exitosos = sys.patrones_exitosos ∧
    (sys.add_user_experience e).combinaciones_ejercicios = sys.combinaciones_ejercicios := by
  unfold LearningSystem.add_user_experience
  dsimp only
  split_ifs
  · exact ⟨(evolve_generation_proj _).1, (evolve_generation_proj _).2⟩
  · exact ⟨rfl, rfl⟩

lemma foldl_increment_count (exs : List Exercise) (s : LearningSystem) (g e : String) :
    (exs.foldl (fun s2 exercise => if exercise.is_cardio then s2
        else s2.increment_exercise_combination exercise.grupo exercise.ejercicio)
        s).combinaciones_ejercicios g e =
      s.combinaciones_ejercicios g e +
        (exs.filter (fun ex => !ex.is_cardio && decide (ex.grupo = g) &&
          decide (ex.ejercicio = e))).length := by
  induction exs generalizing s with
  | nil => simp
  | cons ex exs ih =>
    rw [List.foldl_cons, ih]
    by_cases hc : ex.is_cardio
    · simp [hc]
    · by_cases hg : ex.grupo = g <;> by_cases he : ex.ejercicio = e <;>
        simp [hc, hg, he, LearningSystem.increment_exercise_combination,
          List.filter_cons] <;>
        first
          | omega
          | exact fun hh => hg hh.symm
          | exact fun hh => he hh.symm
          | exact fun _ hh => he hh.symm

lemma update_exercise_combinations_count (sys : LearningSystem) (r : Routine)
    (g e : String) :
    (update_exercise_combinations sys r).combinaciones_ejercicios g e =
      sys.combinaciones_ejercicios g e + countNonCardio r g e := by
  unfold update_exercise_combinations countNonCardio
  generalize r.rutina_semanal = days
  induction days generalizing sys with
  | nil => simp
  | cons day days ih =>
    rw [List.foldl_cons, ih, foldl_increment_count]
    simp [add_assoc]

/-- Claim C4: a `process_feedback` call appends exactly one entry to
`successPatterns` at the `nivel_objetivo` key of the profile, and bumps each
exercise-combination count by the number of matching non-cardio slots of the
routine, precisely when the submitted satisfaction is at least 4; for lower
satisfaction both stores are left unchanged. -/
theorem process_feedback_success_updates_stores (sys : LearningSystem) (user : User)
    (routine : Routine) (sat : ℤ) (c fecha : String)
    (out : LearningSystem × Routine × LearningResults)
    (hok : process_feedback sys user routine sat c fecha = Except.ok out) :
    (∀ k, out.1.patrones_exitosos k =
        sys.patrones_exitosos k ++
          (if 4 ≤ sat ∧ k = user.perfil.nivel_str ++ "_" ++ user.perfil.objetivo_str
           then [{ rutina := out.2.1.to_dict, satisfaccion := sat, fecha := fecha }]
           else [])) ∧
    (∀ g e, out.1.combinaciones_ejercicios g e =
        sys.combinaciones_ejercicios g e +
          (if 4 ≤ sat then countNonCardio out.2.1 g e else 0)) := by
  cases hsf : routine.set_feedback sat c with
  | error msg => simp [process_feedback, hsf, bind, Except.bind] at hok
  | ok r =>
    have hr : r = { routine with satisfaccion := some sat, comentarios := some c } := by
      unfold Routine.set_feedback at hsf
      split_ifs at hsf with hcond
      all_goals cases hsf
      rfl
    have hsucc : r.is_successful = decide (4 ≤ sat) := by
      rw [hr]
      rfl
    simp only [process_feedback, hsf, bind, Except.bind, pure, Except.pure,
      Except.ok.injEq] at hok
    subst hok
    dsimp only
    by_cases h4 : 4 ≤ sat
    · have hst : r.is_successful = true := by rw [hsucc]; exact decide_eq_true h4
      simp only [hst, if_pos]
      constructor
      · intro k
        rw [(adjust_exploration_factor_proj _ _ _).1,
          (update_exercise_combinations_proj _ _).2.2.1]
        unfold update_successful_patterns LearningSystem.add_successful_pattern
        dsimp only
        rw [(add_user_experience_proj _ _).1]
        by_cases hk : k = user.perfil.nivel_str ++ "_" ++ user.perfil.objetivo_str
        · simp [hk, h4]
        · simp [hk, h4]
      · intro g e
        rw [(adjust_exploration_factor_proj _ _ _).2, update_exercise_combinations_count]
        unfold update_successful_patterns LearningSystem.add_successful_pattern
        dsimp only
        rw [(add_user_experience_proj _ _).2]
        simp [h4]
    · have hst : r.is_successful = false := by
        rw [hsucc]
        exact decide_eq_false h4
      simp only [hst, Bool.false_eq_true, if_neg, if_false]
      constructor
      · intro k
        rw [(adjust_exploration_factor_proj _ _ _).1, (add_user_experience_proj _ _).1]
        simp [h4]
      · intro g e
        rw [(adjust_exploration_factor_proj _ _ _).2, (add_user_experience_proj _ _).2]
        simp [h4]

/-- Witness for C4: processing satisfaction-5 feedback on a concrete routine
from the empty store. -/
theorem process_feedback_success_updates_stores_witness :
    process_feedback LearningSystem.initial wUser wRoutine 5 "hoy" "2024-01-01" =
      Except.ok wOut ∧
    ((∀ k, wOut.1.patrones_exitosos k =
        LearningSystem.initial.patrones_exitosos k ++
          (if 4 ≤ (5 : ℤ) ∧ k = wUser.perfil.nivel_str ++ "_" ++ wUser.perfil.objetivo_str
           then [{ rutina := wOut.2.1.to_dict, satisfaccion := 5, fecha := "2024-01-01" }]
           else [])) ∧
     (∀ g e, wOut.1.combinaciones_ejercicios g e =
        LearningSystem.initial.combinaciones_ejercicios g e +
          (if 4 ≤ (5 : ℤ) then countNonCardio wOut.2.1 g e else 0))) :=
  ⟨rfl, process_feedback_success_updates_stores LearningSystem.initial wUser wRoutine 5
    "hoy" "2024-01-01" wOut rfl⟩

lemma normDiffSq_comm (v1 v2 : Option PVal) (d norm : ℚ) :
    normDiffSq v1 v2 d norm = normDiffSq v2 v1 d norm := by
  unfold normDiffSq
  cases h1 : getNumD v1 d <;> cases h2 : getNumD v2 d <;> simp [abs_sub_comm]

lemma objDiff_comm (p1 p2 : PyDict) : objDiff p1 p2 = objDiff p2 p1 := by
  unfold objDiff
  by_cases h : p1.objetivo_str.getD (PVal.str "") = p2.objetivo_str.getD (PVal.str "")
  · rw [if_pos h, if_pos h.symm]
  · rw [if_neg h, if_neg (fun hh => h hh.symm)]

lemma simDistSq_comm (p1 p2 : PyDict) : simDistSq p1 p2 = simDistSq p2 p1 := by
  unfold simDistSq
  rw [normDiffSq_comm p1.edad, normDiffSq_comm p1.imc, normDiffSq_comm p1.nivel_num,
    normDiffSq_comm p1.dias, objDiff_comm]

lemma simDistSq_self_to_dict (p : Profile) : simDistSq p.to_dict p.to_dict = some 0 := by
  unfold simDistSq normDiffSq getNumD objDiff Profile.to_dict
  simp [bind, Option.bind]

/-- Claim C7: profile similarity is symmetric in its two dictionary
arguments, and a valid profile has similarity exactly 1 with itself
(distance 0 gives `1/(1+0)`). -/
theorem profile_similarity_symm_and_id :
    (∀ a b : PyDict, calculate_profile_similarity a b = calculate_profile_similarity b a) ∧
    (∀ p : Profile, calculate_profile_similarity p.to_dict p.to_dict = 1) := by
  constructor
  · intro a b
    unfold calculate_profile_similarity
    rw [simDistSq_comm]
  · intro p
    unfold calculate_profile_similarity
    rw [simDistSq_self_to_dict]
    norm_num

lemma normDiffSq_nonneg {v1 v2 : Option PVal} {d norm q : ℚ}
    (h : normDiffSq v1 v2 d norm = some q) : 0 ≤ q := by
  unfold normDiffSq at h
  rcases h1 : getNumD v1 d with _ | a <;> rcases h2 : getNumD v2 d with _ | b <;>
    rw [h1, h2] at h <;> simp at h
  rw [← h]
  positivity

lemma simDistSq_nonneg {p1 p2 : PyDict} {q : ℚ} (h : simDistSq p1 p2 = some q) :
    0 ≤ q := by
  unfold simDistSq at h
  simp only [bind, Option.bind_eq_some, pure, Option.some.injEq] at h
  obtain ⟨de, hde, di, hdi, dn, hdn, dd, hdd, hsum⟩ := h
  have h1 := normDiffSq_nonneg hde
  have h2 := normDiffSq_nonneg hdi
  have h3 := normDiffSq_nonneg hdn
  have h4 := normDiffSq_nonneg hdd
  have h5 : 0 ≤ objDiff p1 p2 ^ 2 := sq_nonneg _
  rw [← hsum]
  linarith

/-- Claim C10: `calculate_profile_similarity` is total over arbitrary
dictionaries (the `except` path yields the neutral 0.5) and its value is
always in the half-open interval `(0, 1]`. -/
theorem profile_similarity_range (p1 p2 : PyDict) :
    0 < calculate_profile_similarity p1 p2 ∧ calculate_profile_similarity p1 p2 ≤ 1 := by
  unfold calculate_profile_similarity
  rcases h : simDistSq p1 p2 with _ | d
  · norm_num
  · have hd : (0 : ℝ) ≤ (d : ℝ) := by exact_mod_cast simDistSq_nonneg h
    have hs : 0 ≤ Real.sqrt (d : ℝ) := Real.sqrt_nonneg _
    constructor
    · positivity
    · rw [div_le_one (by positivity)]
      linarith

lemma find_similar_users_nil (sys : LearningSystem) (profile : Profile) (t : ℝ)
    (h : ∀ e ∈ sys.historico_usuarios, ∀ pd, e.perfil = some pd →
      calculate_profile_similarity profile.to_dict pd < t) :
    find_similar_users sys profile t = [] := by
  have hfm : sys.historico_usuarios.filterMap (fun user_exp =>
      match user_exp.perfil with
      | none => none
      | some user_profile_data =>
        let similarity := calculate_profile_similarity profile.to_dict user_profile_data
        if t ≤ similarity then some (⟨user_exp, similarity⟩ : SimilarUser) else none) = [] := by
    rw [List.filterMap_eq_nil_iff]
    intro e he
    cases hp : e.perfil with
    | none => simp [hp]
    | some pd =>
      simp only [hp]
      rw [if_neg (not_le.mpr (h e he pd hp))]
  unfold find_similar_users
  rw [hfm]
  simp

/-- Claim C5: when no history entry reaches similarity 0.7 with the profile
(in particular with an empty history), `predict_satisfaction` returns
exactly the baseline: prediction 3.5, confidence 0.3, recommend true, zero
similar users, method `baseline`. -/
theorem predict_satisfaction_baseline_when_no_similar (sys : LearningSystem)
    (profile : Profile) (routine : Option Routine)
    (h : ∀ e ∈ sys.historico_usuarios, ∀ pd, e.perfil = some pd →
      calculate_profile_similarity profile.to_dict pd < 0.7) :
    predict_satisfaction sys profile routine =
      { satisfaccion_predicha := 3.5, confianza := 0.3,
        factores := { sin_datos := some true }, recomendacion := true,
        usuarios_similares := 0, metodo := "baseline" } := by
  unfold predict_satisfaction
  rw [find_similar_users_nil sys profile 0.7 h]
  rfl

/-- Witness for C5: the empty store. -/
theorem predict_satisfaction_baseline_when_no_similar_witness :
    (∀ e ∈ LearningSystem.initial.historico_usuarios, ∀ pd, e.perfil = some pd →
      calculate_profile_similarity wProfile.to_dict pd < 0.7) ∧
    predict_satisfaction LearningSystem.initial wProfile none =
      { satisfaccion_predicha := 3.5, confianza := 0.3,
        factores := { sin_datos := some true }, recomendacion := true,
        usuarios_similares := 0, metodo := "baseline" } :=
  ⟨by simp [LearningSystem.initial],
   predict_satisfaction_baseline_when_no_similar LearningSystem.initial wProfile none
     (by simp [LearningSystem.initial])⟩

lemma successful_similar_users_nil (sys : LearningSystem) (profile : Profile)
    (h : ∀ e ∈ sys.historico_usuarios, ∀ pd, e.perfil = some pd →
      calculate_profile_similarity profile.to_dict pd < 0.75 ∨ e.satisfaccion.getD 0 < 4) :
    (find_similar_users sys profile 0.75).filter
      (fun u => decide ((4 : ℚ) ≤ u.usuario.satisfaccion.getD 0)) = [] := by
  rw [List.filter_eq_nil_iff]
  intro u hu
  unfold find_similar_users at hu
  have hu2 := List.mem_mergeSort.mp (List.mem_of_mem_take hu)
  obtain ⟨e, he, hfe⟩ := List.mem_filterMap.mp hu2
  rcases hp : e.perfil with _ | pd
  · rw [hp] at hfe
    cases hfe
  · rw [hp] at hfe
    dsimp only at hfe
    by_cases hts : (0.75 : ℝ) ≤ calculate_profile_similarity profile.to_dict pd
    · rw [if_pos hts] at hfe
      cases hfe
      rcases h e he pd hp with hlt | hsat
      · exact absurd hts (not_le.mpr hlt)
      · simp only [decide_eq_true_eq]
        exact not_le.mpr hsat
    · rw [if_neg hts] at hfe
      cases hfe

/-- Claim C6: with no similar successful user (satisfaction at least 4 at
similarity threshold 0.75), `infer_optimal_parameters` returns the static
heuristic values with confidence exactly 0.5 and method `heuristica`;
concretely, for an intermediate-level mass-gain profile this is 4 series,
rep range 8-12 and rest `60-90s`. -/
theorem infer_optimal_parameters_heuristic_when_no_successful (sys : LearningSystem)
    (profile : Profile)
    (h : ∀ e ∈ sys.historico_usuarios, ∀ pd, e.perfil = some pd →
      calculate_profile_similarity profile.to_dict pd < 0.75 ∨ e.satisfaccion.getD 0 < 4) :
    infer_optimal_parameters sys profile = parameters_by_heuristics profile ∧
    (infer_optimal_parameters sys profile).confianza = 0.5 ∧
    (infer_optimal_parameters sys profile).metodo = "heuristica" ∧
    (profile.nivel_str = "intermedio" → profile.objetivo_str = "ganar_masa" →
      infer_optimal_parameters sys profile =
        { series := 4, repeticiones_min := 8, repeticiones_max := 12,
          descanso := "60-90s", confianza := 0.5, basado_en := 0,
          metodo := "heuristica" }) := by
  have hmain : infer_optimal_parameters sys profile = parameters_by_heuristics profile := by
    unfold infer_optimal_parameters
    dsimp only
    rw [successful_similar_users_nil sys profile h]
  refine ⟨hmain, by rw [hmain]; rfl, by rw [hmain]; rfl, fun h1 h2 => ?_⟩
  rw [hmain]
  unfold parameters_by_heuristics RoutineConfig.PARAMS_BY_GOAL RoutineConfig.SERIES_BY_LEVEL
  rw [h1, h2]
  rfl

/-- Witness for C6: the empty store and the intermediate mass-gain
profile. -/
theorem infer_optimal_parameters_heuristic_when_no_successful_witness :
    (∀ e ∈ LearningSystem.initial.historico_usuarios, ∀ pd, e.perfil = some pd →
      calculate_profile_similarity wProfile.to_dict pd < 0.75 ∨ e.satisfaccion.getD 0 < 4) ∧
    infer_optimal_parameters LearningSystem.initial wProfile =
      { series := 4, repeticiones_min := 8, repeticiones_max := 12,
        descanso := "60-90s", confianza := 0.5, basado_en := 0, metodo := "heuristica" } :=
  ⟨by simp [LearningSystem.initial],
   (infer_optimal_parameters_heuristic_when_no_successful LearningSystem.initial wProfile
     (by simp [LearningSystem.initial])).2.2.2 rfl rfl⟩

end GymAI
